import Mathlib

/-!
Verification of the session-state prediction/feedback workflow of
`predictive_app.py` (ots-model-monitoring-dashboard).

The Streamlit script is embedded shallowly:

* the five `st.session_state` keys form the structure `WorkflowState`;
* the two loaded models are abstract functions from their feature records
  to `Except String ℚ` (an `error` models a Python exception raised by
  `predict`);
* the "Run Prediction" handler (lines 52-70) is `runPredAction`;
* the "Submit Feedback" handler (lines 92-120) is `submitFeedbackWith`,
  parametrised by the external `log_utils.log_prediction` sink, modelled
  from the spec as an append that either succeeds or fails (a failure
  appends nothing and the exception propagates);
* wall-clock samples `time.time()` are explicit rational parameters;
* a user session is a list of actions folded over the initial state.
-/

/-- The canonical input record built from the four sidebar widgets
(lines 41-46 of `predictive_app.py`). -/
structure InputRecord where
  StartHour : ℕ
  TurnAroundTime : ℕ
  DisplayValue : String
  ProposedProcedure : String
  deriving DecidableEq, Repr

/-- Feature record consumed by the baseline model:
`input_df[["DisplayValue", "ProposedProcedure"]]` (line 56). -/
structure FeaturesV1 where
  DisplayValue : String
  ProposedProcedure : String
  deriving DecidableEq, Repr

/-- Feature record consumed by the improved model:
`input_df[["StartHour", "TurnAroundTime", "DisplayValue", "ProposedProcedure"]]`
(line 60). -/
structure FeaturesV2 where
  StartHour : ℕ
  TurnAroundTime : ℕ
  DisplayValue : String
  ProposedProcedure : String
  deriving DecidableEq, Repr

/-- Projection for the baseline model v1 (line 56). -/
def input_v1 (r : InputRecord) : FeaturesV1 :=
  { DisplayValue := r.DisplayValue, ProposedProcedure := r.ProposedProcedure }

/-- Projection for the improved model v2 (line 60). -/
def input_v2 (r : InputRecord) : FeaturesV2 :=
  { StartHour := r.StartHour, TurnAroundTime := r.TurnAroundTime,
    DisplayValue := r.DisplayValue, ProposedProcedure := r.ProposedProcedure }

/-- A model: opaque predictor that may raise (Python exception = `error`). -/
def ModelV1 : Type := FeaturesV1 → Except String ℚ

/-- The improved model's type. -/
def ModelV2 : Type := FeaturesV2 → Except String ℚ

/-- The five `st.session_state` keys initialised at lines 21-30. -/
structure WorkflowState where
  pred_ready : Bool
  old_pred : Option ℚ
  new_pred : Option ℚ
  latency_ms : Option ℚ
  input_summary : String
  deriving DecidableEq, Repr

/-- Initial session state (lines 21-30): ready false, predictions and
latency `None`, summary the empty string. -/
def initState : WorkflowState :=
  { pred_ready := false, old_pred := none, new_pred := none,
    latency_ms := none, input_summary := "" }

/-- The f-string of line 69:
`f"StartHour={...}, TurnAroundTime={...}, DisplayValue={...}, ProposedProcedure={...}"`. -/
def mkInputSummary (r : InputRecord) : String :=
  "StartHour=" ++ toString r.StartHour ++
  ", TurnAroundTime=" ++ toString r.TurnAroundTime ++
  ", DisplayValue=" ++ r.DisplayValue ++
  ", ProposedProcedure=" ++ r.ProposedProcedure

/-- The "Run Prediction" handler (lines 52-70).  `startT`/`endT` are the
two `time.time()` samples.  The five session-state stores (lines 66-70)
happen only after both `predict` calls returned, so an exception from
either model leaves the session state untouched; the second component
carries the propagated exception, if any. -/
def runPredAction (old_model : ModelV1) (new_model : ModelV2)
    (startT endT : ℚ) (r : InputRecord) (s : WorkflowState) :
    WorkflowState × Option String :=
  match old_model (input_v1 r) with
  | .error e => (s, some e)
  | .ok old_pred =>
    match new_model (input_v2 r) with
    | .error e => (s, some e)
    | .ok new_pred =>
      ({ pred_ready := true,
         old_pred := some old_pred,
         new_pred := some new_pred,
         latency_ms := some ((endT - startT) * 1000),
         input_summary := mkInputSummary r }, none)

/-- One record passed to `log_prediction` (lines 97-115).  `prediction`
and `latency_ms` are read straight from the session state, whose values
are optional before the first successful run. -/
structure LogEntry where
  model_version : String
  model_type : String
  input_summary : String
  prediction : Option ℚ
  latency_ms : Option ℚ
  feedback_score : ℕ
  feedback_text : String
  deriving DecidableEq, Repr

/-- The four feedback widgets (lines 84-89). -/
structure FeedbackInputs where
  feedback_score : ℕ
  feedback_text : String
  feedback_score_v2 : ℕ
  feedback_text_v2 : String
  deriving DecidableEq, Repr

/-- The first `log_prediction` call's arguments (lines 97-105). -/
def entryV1 (fb : FeedbackInputs) (s : WorkflowState) : LogEntry :=
  { model_version := "v1_old", model_type := "baseline",
    input_summary := s.input_summary, prediction := s.old_pred,
    latency_ms := s.latency_ms, feedback_score := fb.feedback_score,
    feedback_text := fb.feedback_text }

/-- The second `log_prediction` call's arguments (lines 107-115). -/
def entryV2 (fb : FeedbackInputs) (s : WorkflowState) : LogEntry :=
  { model_version := "v2_new", model_type := "improved",
    input_summary := s.input_summary, prediction := s.new_pred,
    latency_ms := s.latency_ms, feedback_score := fb.feedback_score_v2,
    feedback_text := fb.feedback_text_v2 }

/-- Modelled from the spec: the external `log_utils.log_prediction`
(absent from `src/`) appends one record to the monitoring log and either
succeeds or fails; on failure ("storage unavailable") nothing is
appended and the exception propagates to the caller. -/
def Logger : Type := LogEntry → Except String Unit

/-- The warning of line 94. -/
def notReadyWarning : String :=
  "Please run the prediction first, then submit your feedback."

/-- The success message of lines 117-120. -/
def feedbackSuccessMsg : String :=
  "Feedback and predictions have been saved to monitoring_logs.csv. " ++
  "You can now view them in the monitoring dashboard."

/-- Observable outcome of one "Submit Feedback" click: the session state
afterwards, the `log_prediction` calls made (in order), the records
actually appended (the calls that succeeded), the warnings and success
messages shown, and a propagated exception if a logger call raised. -/
structure FbOutcome where
  state : WorkflowState
  invoked : List LogEntry
  appended : List LogEntry
  warnings : List String
  successes : List String
  exc : Option String
  deriving DecidableEq, Repr

/-- The "Submit Feedback" handler (lines 92-120), parametrised by the
logger.  If `pred_ready` is false the handler only warns (line 94);
otherwise it calls `log_prediction` for v1 then for v2 and finally shows
the success message.  An exception from a logger call propagates at once
(the handler has no try/except), skipping everything after it. -/
def submitFeedbackWith (logger : Logger) (fb : FeedbackInputs)
    (s : WorkflowState) : FbOutcome :=
  if s.pred_ready = false then
    { state := s, invoked := [], appended := [],
      warnings := [notReadyWarning], successes := [], exc := none }
  else
    match logger (entryV1 fb s) with
    | .error ex =>
      { state := s, invoked := [entryV1 fb s], appended := [],
        warnings := [], successes := [], exc := some ex }
    | .ok _ =>
      match logger (entryV2 fb s) with
      | .error ex =>
        { state := s, invoked := [entryV1 fb s, entryV2 fb s],
          appended := [entryV1 fb s],
          warnings := [], successes := [], exc := some ex }
      | .ok _ =>
        { state := s, invoked := [entryV1 fb s, entryV2 fb s],
          appended := [entryV1 fb s, entryV2 fb s],
          warnings := [], successes := [feedbackSuccessMsg], exc := none }

/-- A logger whose appends always succeed. -/
def alwaysOkLogger : Logger := fun _ => .ok ()

/-- "Submit Feedback" in the normal regime where the log sink is
available. -/
def submitFeedbackAction (fb : FeedbackInputs) (s : WorkflowState) : FbOutcome :=
  submitFeedbackWith alwaysOkLogger fb s

/-- One user-triggered script rerun: a plain re-render (no button), a
"Run Prediction" click (with the wall-clock samples and the current
widget values), or a "Submit Feedback" click (with the logger's
behaviour and the current feedback widgets). -/
inductive UserAction where
  | rerender : UserAction
  | runPred (old_model : ModelV1) (new_model : ModelV2)
      (startT endT : ℚ) (r : InputRecord) : UserAction
  | submitFb (logger : Logger) (fb : FeedbackInputs) : UserAction

/-- Session-state transition of one rerun.  Only the "Run Prediction"
branch writes to the session state. -/
def step (s : WorkflowState) (a : UserAction) : WorkflowState :=
  match a with
  | .rerender => s
  | .runPred oldM newM t1 t2 r => (runPredAction oldM newM t1 t2 r s).1
  | .submitFb logger fb => (submitFeedbackWith logger fb s).state

/-- Session state after a list of reruns starting from the initial
state. -/
def runTrace (as : List UserAction) : WorkflowState :=
  as.foldl step initState

/-- A session state is reachable when some sequence of reruns produces
it. -/
def Reachable (s : WorkflowState) : Prop :=
  ∃ as : List UserAction, runTrace as = s

/-- `pred_ready` implies the pinned prediction data exists. -/
def ReadyInv (s : WorkflowState) : Prop :=
  s.pred_ready = true →
    s.old_pred.isSome = true ∧ s.new_pred.isSome = true ∧
    s.latency_ms.isSome = true

lemma readyInv_init : ReadyInv initState := by
  intro h
  simp [initState] at h

lemma submitFeedbackWith_state (logger : Logger) (fb : FeedbackInputs)
    (s : WorkflowState) : (submitFeedbackWith logger fb s).state = s := by
  unfold submitFeedbackWith
  by_cases h : s.pred_ready = false
  · rw [if_pos h]
  · rw [if_neg h]
    cases h1 : logger (entryV1 fb s) with
    | error e => rfl
    | ok u =>
      cases h2 : logger (entryV2 fb s) with
      | error e => rfl
      | ok u => rfl

lemma readyInv_step (s : WorkflowState) (a : UserAction)
    (h : ReadyInv s) : ReadyInv (step s a) := by
  rcases a with _ | ⟨oldM, newM, t1, t2, r⟩ | ⟨logger, fb⟩
  · exact h
  · show ReadyInv (runPredAction oldM newM t1 t2 r s).1
    unfold runPredAction
    cases h1 : oldM (input_v1 r) with
    | error e => exact h
    | ok p =>
      cases h2 : newM (input_v2 r) with
      | error e => exact h
      | ok q => exact fun _ => ⟨rfl, rfl, rfl⟩
  · show ReadyInv (submitFeedbackWith logger fb s).state
    rw [submitFeedbackWith_state]
    exact h

lemma readyInv_reachable (s : WorkflowState) (h : Reachable s) : ReadyInv s := by
  obtain ⟨as, rfl⟩ := h
  unfold runTrace
  induction as using List.reverseRecOn with
  | nil => exact readyInv_init
  | append_singleton as a ih =>
    rw [List.foldl_append, List.foldl_cons, List.foldl_nil]
    exact readyInv_step _ _ ih

lemma step_ready_mono (s : WorkflowState) (a : UserAction)
    (h : s.pred_ready = true) : (step s a).pred_ready = true := by
  rcases a with _ | ⟨oldM, newM, t1, t2, r⟩ | ⟨logger, fb⟩
  · exact h
  · show (runPredAction oldM newM t1 t2 r s).1.pred_ready = true
    unfold runPredAction
    cases h1 : oldM (input_v1 r) with
    | error e => exact h
    | ok p =>
      cases h2 : newM (input_v2 r) with
      | error e => exact h
      | ok q => rfl
  · show (submitFeedbackWith logger fb s).state.pred_ready = true
    rw [submitFeedbackWith_state]
    exact h

lemma foldl_ready_mono (s : WorkflowState) (bs : List UserAction)
    (h : s.pred_ready = true) : (bs.foldl step s).pred_ready = true := by
  induction bs generalizing s with
  | nil => exact h
  | cons b bs ih => exact ih (step s b) (step_ready_mono s b h)

/-- Concrete input of spec §8 scenario 6: StartHour 8, TurnAroundTime 15,
DisplayValue "OR 1", ProposedProcedure "COLOSCP - COLONOSCOPY;". -/
def inputOR1 : InputRecord :=
  { StartHour := 8, TurnAroundTime := 15, DisplayValue := "OR 1",
    ProposedProcedure := "COLOSCP - COLONOSCOPY;" }

/-- Concrete feedback widgets: scores 5 and 3, comments "great" and
"meh" (spec §8 scenario 6). -/
def fb0 : FeedbackInputs :=
  { feedback_score := 5, feedback_text := "great",
    feedback_score_v2 := 3, feedback_text_v2 := "meh" }

/-- A session state after a successful prediction run. -/
def readyState : WorkflowState :=
  { pred_ready := true, old_pred := some 12, new_pred := some 34,
    latency_ms := some 1000, input_summary := mkInputSummary inputOR1 }

/-- A baseline model that always answers 12. -/
def okModelV1 : ModelV1 := fun _ => .ok 12

/-- An improved model that always answers 34. -/
def okModelV2 : ModelV2 := fun _ => .ok 34

/-- A baseline model whose `predict` raises. -/
def failModelV1 : ModelV1 := fun _ => .error "model error"

/-- A logger whose append always fails (storage unavailable). -/
def failLogger : Logger := fun _ => .error "storage unavailable"

/-- Claim C1: triggering feedback-submit with `pred_ready` false makes
zero `log_prediction` calls, emits exactly the one warning, and leaves
the session state unchanged; and from any reachable session state, every
log entry the handler emits carries an existing prediction and latency
(never a `None`). -/
theorem C1_feedback_gated (logger : Logger) (fb : FeedbackInputs) (s : WorkflowState) :
    (s.pred_ready = false →
      (submitFeedbackWith logger fb s).invoked = [] ∧
      (submitFeedbackWith logger fb s).warnings = [notReadyWarning] ∧
      (submitFeedbackWith logger fb s).state = s) ∧
    (Reachable s →
      ∀ e ∈ (submitFeedbackWith logger fb s).invoked,
        e.prediction.isSome = true ∧ e.latency_ms.isSome = true) := by
  constructor
  · intro h
    unfold submitFeedbackWith
    rw [if_pos h]
    exact ⟨rfl, rfl, rfl⟩
  · intro hr e he
    have hinv := readyInv_reachable s hr
    by_cases h : s.pred_ready = false
    · unfold submitFeedbackWith at he
      rw [if_pos h] at he
      simp at he
    · have hready : s.pred_ready = true := by
        cases hb : s.pred_ready
        · exact absurd hb h
        · rfl
      obtain ⟨h1, h2, h3⟩ := hinv hready
      unfold submitFeedbackWith at he
      rw [if_neg h] at he
      cases hl1 : logger (entryV1 fb s) with
      | error ex =>
        rw [hl1] at he
        simp at he
        subst he
        exact ⟨h1, h3⟩
      | ok u =>
        rw [hl1] at he
        cases hl2 : logger (entryV2 fb s) with
        | error ex =>
          rw [hl2] at he
          simp at he
          rcases he with he | he <;> subst he
          · exact ⟨h1, h3⟩
          · exact ⟨h2, h3⟩
        | ok u2 =>
          rw [hl2] at he
          simp at he
          rcases he with he | he <;> subst he
          · exact ⟨h1, h3⟩
          · exact ⟨h2, h3⟩

/-- Witness for C1 at the initial session state. -/
theorem C1_feedback_gated_witness :
    (submitFeedbackWith alwaysOkLogger fb0 initState).invoked = [] ∧
    (submitFeedbackWith alwaysOkLogger fb0 initState).warnings = [notReadyWarning] ∧
    (submitFeedbackWith alwaysOkLogger fb0 initState).state = initState :=
  (C1_feedback_gated alwaysOkLogger fb0 initState).1 rfl

/-- Claim C2: with `pred_ready` true, feedback-submit makes exactly two
logger calls, `v1_old`/`baseline` with the stored old prediction and the
v1 feedback pair, then `v2_new`/`improved` with the stored new
prediction and the v2 feedback pair, both sharing the stored
`input_summary` and `latency_ms`; both records are appended. -/
theorem C2_two_log_calls (fb : FeedbackInputs) (s : WorkflowState)
    (h : s.pred_ready = true) :
    (submitFeedbackAction fb s).invoked =
      [{ model_version := "v1_old", model_type := "baseline",
         input_summary := s.input_summary, prediction := s.old_pred,
         latency_ms := s.latency_ms, feedback_score := fb.feedback_score,
         feedback_text := fb.feedback_text },
       { model_version := "v2_new", model_type := "improved",
         input_summary := s.input_summary, prediction := s.new_pred,
         latency_ms := s.latency_ms, feedback_score := fb.feedback_score_v2,
         feedback_text := fb.feedback_text_v2 }] ∧
    (submitFeedbackAction fb s).appended = (submitFeedbackAction fb s).invoked ∧
    (submitFeedbackAction fb s).warnings = [] := by
  unfold submitFeedbackAction submitFeedbackWith alwaysOkLogger
  rw [if_neg (by simp [h])]
  exact ⟨rfl, rfl, rfl⟩

/-- Witness for C2 at a concrete post-run state. -/
theorem C2_two_log_calls_witness :
    (submitFeedbackAction fb0 readyState).invoked =
      [{ model_version := "v1_old", model_type := "baseline",
         input_summary := readyState.input_summary, prediction := some 12,
         latency_ms := some 1000, feedback_score := 5,
         feedback_text := "great" },
       { model_version := "v2_new", model_type := "improved",
         input_summary := readyState.input_summary, prediction := some 34,
         latency_ms := some 1000, feedback_score := 3,
         feedback_text := "meh" }] ∧
    (submitFeedbackAction fb0 readyState).appended =
      (submitFeedbackAction fb0 readyState).invoked ∧
    (submitFeedbackAction fb0 readyState).warnings = [] :=
  C2_two_log_calls fb0 readyState rfl

/-- Claim C3: if either model's `predict` raises during "Run
Prediction", the session state is left exactly as it was — the commit of
the five fields is all-or-nothing. -/
theorem C3_all_or_nothing (oldM : ModelV1) (newM : ModelV2) (t1 t2 : ℚ)
    (r : InputRecord) (s : WorkflowState)
    (h : (∃ e, oldM (input_v1 r) = .error e) ∨ (∃ e, newM (input_v2 r) = .error e)) :
    (runPredAction oldM newM t1 t2 r s).1 = s := by
  unfold runPredAction
  cases h1 : oldM (input_v1 r) with
  | error e => rfl
  | ok p =>
    cases h2 : newM (input_v2 r) with
    | error e => rfl
    | ok q =>
      rcases h with ⟨e, he⟩ | ⟨e, he⟩
      · rw [h1] at he
        exact absurd he (by simp)
      · rw [h2] at he
        exact absurd he (by simp)

/-- Witness for C3 with a raising baseline model. -/
theorem C3_all_or_nothing_witness :
    (runPredAction failModelV1 okModelV2 0 1 inputOR1 initState).1 = initState :=
  C3_all_or_nothing failModelV1 okModelV2 0 1 inputOR1 initState
    (Or.inl ⟨"model error", rfl⟩)

/-- Claim C4: `pred_ready` starts false, a single rerun turns it true
only via a "Run Prediction" click in which both `predict` calls
succeed, and once true it stays true for the rest of the session. -/
theorem C4_ready_monotone :
    initState.pred_ready = false ∧
    (∀ (s : WorkflowState) (a : UserAction),
      s.pred_ready = false → (step s a).pred_ready = true →
      ∃ (oldM : ModelV1) (newM : ModelV2) (t1 t2 : ℚ) (r : InputRecord) (p q : ℚ),
        a = .runPred oldM newM t1 t2 r ∧
        oldM (input_v1 r) = .ok p ∧ newM (input_v2 r) = .ok q) ∧
    (∀ (as bs : List UserAction),
      (runTrace as).pred_ready = true → (runTrace (as ++ bs)).pred_ready = true) := by
  refine ⟨rfl, ?_, ?_⟩
  · intro s a hf ht
    rcases a with _ | ⟨oldM, newM, t1, t2, r⟩ | ⟨logger, fb⟩
    · have : s.pred_ready = true := ht
      rw [hf] at this
      exact absurd this (by simp)
    · refine ⟨oldM, newM, t1, t2, r, ?_⟩
      have ht' : (runPredAction oldM newM t1 t2 r s).1.pred_ready = true := ht
      unfold runPredAction at ht'
      cases h1 : oldM (input_v1 r) with
      | error e =>
        rw [h1] at ht'
        rw [hf] at ht'
        exact absurd ht' (by simp)
      | ok p =>
        rw [h1] at ht'
        cases h2 : newM (input_v2 r) with
        | error e =>
          rw [h2] at ht'
          rw [hf] at ht'
          exact absurd ht' (by simp)
        | ok q => exact ⟨p, q, rfl, rfl, rfl⟩
    · have ht' : (submitFeedbackWith logger fb s).state.pred_ready = true := ht
      rw [submitFeedbackWith_state] at ht'
      rw [hf] at ht'
      exact absurd ht' (by simp)
  · intro as bs h
    unfold runTrace at h ⊢
    rw [List.foldl_append]
    exact foldl_ready_mono _ bs h

/-- Witness for C4: after one successful run, `pred_ready` survives a
re-render and a feedback submission. -/
theorem C4_ready_monotone_witness :
    (runTrace ([UserAction.runPred okModelV1 okModelV2 0 1 inputOR1] ++
      [UserAction.rerender, UserAction.submitFb alwaysOkLogger fb0])).pred_ready = true :=
  C4_ready_monotone.2.2 [UserAction.runPred okModelV1 okModelV2 0 1 inputOR1]
    [UserAction.rerender, UserAction.submitFb alwaysOkLogger fb0] rfl

/-- Claim C5: a successful "Run Prediction" commits exactly the two
model results, one shared latency `(endT - startT) * 1000` measured over
the single span containing both invocations, and one shared summary
string. -/
theorem C5_shared_latency_summary (oldM : ModelV1) (newM : ModelV2)
    (t1 t2 : ℚ) (r : InputRecord) (s : WorkflowState) (a b : ℚ)
    (h1 : oldM (input_v1 r) = .ok a) (h2 : newM (input_v2 r) = .ok b) :
    runPredAction oldM newM t1 t2 r s =
      ({ pred_ready := true, old_pred := some a, new_pred := some b,
         latency_ms := some ((t2 - t1) * 1000),
         input_summary := mkInputSummary r }, none) := by
  unfold runPredAction
  rw [h1, h2]

/-- Witness for C5 at the concrete input with a half-second span. -/
theorem C5_shared_latency_summary_witness :
    runPredAction okModelV1 okModelV2 0 (1/2) inputOR1 initState =
      ({ pred_ready := true, old_pred := some 12, new_pred := some 34,
         latency_ms := some 500,
         input_summary := mkInputSummary inputOR1 }, none) := by
  have h := C5_shared_latency_summary okModelV1 okModelV2 0 (1/2) inputOR1
    initState 12 34 rfl rfl
  rw [h]
  norm_num

/-- Claim C6: the committed `input_summary` is the deterministic
f-string with fields in the order StartHour, TurnAroundTime,
DisplayValue, ProposedProcedure; at the concrete spec input it is
exactly the quoted string. -/
theorem C6_input_summary_format (oldM : ModelV1) (newM : ModelV2)
    (t1 t2 : ℚ) (r : InputRecord) (s : WorkflowState) (a b : ℚ)
    (h1 : oldM (input_v1 r) = .ok a) (h2 : newM (input_v2 r) = .ok b) :
    (runPredAction oldM newM t1 t2 r s).1.input_summary =
      "StartHour=" ++ toString r.StartHour ++
      ", TurnAroundTime=" ++ toString r.TurnAroundTime ++
      ", DisplayValue=" ++ r.DisplayValue ++
      ", ProposedProcedure=" ++ r.ProposedProcedure ∧
    mkInputSummary inputOR1 =
      "StartHour=8, TurnAroundTime=15, DisplayValue=OR 1, ProposedProcedure=COLOSCP - COLONOSCOPY;" := by
  constructor
  · unfold runPredAction
    rw [h1, h2]
    rfl
  · rfl

/-- Witness for C6 with always-succeeding models. -/
theorem C6_input_summary_format_witness :
    (runPredAction okModelV1 okModelV2 0 1 inputOR1 initState).1.input_summary =
      "StartHour=" ++ toString inputOR1.StartHour ++
      ", TurnAroundTime=" ++ toString inputOR1.TurnAroundTime ++
      ", DisplayValue=" ++ inputOR1.DisplayValue ++
      ", ProposedProcedure=" ++ inputOR1.ProposedProcedure ∧
    mkInputSummary inputOR1 =
      "StartHour=8, TurnAroundTime=15, DisplayValue=OR 1, ProposedProcedure=COLOSCP - COLONOSCOPY;" :=
  C6_input_summary_format okModelV1 okModelV2 0 1 inputOR1 initState 12 34 rfl rfl

/-- Claim C7: the baseline model is invoked on exactly the
{DisplayValue, ProposedProcedure} projection and the improved model on
exactly the full four-field projection, values unmodified; the action's
outcome depends on the models only through their values at those two
feature records. -/
theorem C7_feature_subsets :
    (∀ r : InputRecord, input_v1 r =
      { DisplayValue := r.DisplayValue, ProposedProcedure := r.ProposedProcedure }) ∧
    (∀ r : InputRecord, input_v2 r =
      { StartHour := r.StartHour, TurnAroundTime := r.TurnAroundTime,
        DisplayValue := r.DisplayValue, ProposedProcedure := r.ProposedProcedure }) ∧
    (∀ (oldM oldM' : ModelV1) (newM newM' : ModelV2) (t1 t2 : ℚ)
      (r : InputRecord) (s : WorkflowState),
      oldM (input_v1 r) = oldM' (input_v1 r) →
      newM (input_v2 r) = newM' (input_v2 r) →
      runPredAction oldM newM t1 t2 r s = runPredAction oldM' newM' t1 t2 r s) := by
  refine ⟨fun r => rfl, fun r => rfl, ?_⟩
  intro oldM oldM' newM newM' t1 t2 r s h1 h2
  unfold runPredAction
  rw [h1, h2]

/-- A baseline model that inspects only its two feature fields. -/
def pickyModelV1 : ModelV1 := fun f =>
  if f.DisplayValue = "OR 1" then .ok 12 else .ok 99

/-- An improved model that inspects only its four feature fields. -/
def pickyModelV2 : ModelV2 := fun f =>
  if f.StartHour = 8 then .ok 34 else .ok 77

/-- Witness for C7: two syntactically different model pairs agreeing on
the projections of the concrete input give identical outcomes. -/
theorem C7_feature_subsets_witness :
    runPredAction okModelV1 okModelV2 0 1 inputOR1 initState =
      runPredAction pickyModelV1 pickyModelV2 0 1 inputOR1 initState :=
  C7_feature_subsets.2.2 okModelV1 pickyModelV1 okModelV2 pickyModelV2
    0 1 inputOR1 initState rfl rfl

/-- Configuration of one `st.slider` widget: `min_value`, `max_value`,
and the initial `value`. -/
structure SliderConfig where
  min_value : Int
  max_value : Int
  value : Int
  deriving DecidableEq, Repr

/-- Whether the slider widget can yield the value `n` (its inclusive
declared range). -/
def SliderConfig.accepts (c : SliderConfig) (n : Int) : Bool :=
  c.min_value ≤ n && n ≤ c.max_value

/-- The "Operation Start Hour" slider (line 35). -/
def startHourSlider : SliderConfig :=
  { min_value := 0, max_value := 23, value := 8 }

/-- The "Turnaround Time (minutes)" slider (line 36). -/
def turnAroundTimeSlider : SliderConfig :=
  { min_value := 0, max_value := 120, value := 15 }

/-- The Model v1 feedback-score slider (line 84). -/
def feedbackScoreSlider : SliderConfig :=
  { min_value := 1, max_value := 5, value := 4 }

/-- The Model v2 feedback-score slider (line 88). -/
def feedbackScoreV2Slider : SliderConfig :=
  { min_value := 1, max_value := 5, value := 4 }

/-- Options of the "DisplayValue" selectbox (line 37). -/
def displayValueOptions : List String :=
  ["OR 1", "OR 2", "OR 3", "OR 4", "OR 5", "OR 6", "OR 7", "OR 8",
   "OR 9", "OR 10", "OR 11", "OR 12", "Endo 1", "Endo 2", "Endo 3", "Endo 4"]

/-- Options of the "ProposedProcedure" selectbox (line 38). -/
def proposedProcedureOptions : List String :=
  ["COLOSCP - COLONOSCOPY;", "GASTSCP - GASTROSCOPY;",
   "GASTCOL - GASTROSCOPY & COLONOSCOPY;",
   "VIDEO LAPAROSCOPIC CHOLECYSTECTOMY;"]

/-- Claim C8: the widgets declare exactly the closed domains of the
spec — StartHour in [0,23] default 8 with both boundaries accepted,
TurnAroundTime in [0,120] default 15 with both boundaries accepted,
16 DisplayValue tokens, 4 ProposedProcedure tokens, and both feedback
scores in [1,5] default 4. -/
theorem C8_widget_domains :
    (startHourSlider.min_value = 0 ∧ startHourSlider.max_value = 23 ∧
     startHourSlider.value = 8 ∧
     startHourSlider.accepts 0 = true ∧ startHourSlider.accepts 23 = true ∧
     startHourSlider.accepts (-1) = false ∧ startHourSlider.accepts 24 = false) ∧
    (turnAroundTimeSlider.min_value = 0 ∧ turnAroundTimeSlider.max_value = 120 ∧
     turnAroundTimeSlider.value = 15 ∧
     turnAroundTimeSlider.accepts 0 = true ∧ turnAroundTimeSlider.accepts 120 = true ∧
     turnAroundTimeSlider.accepts (-1) = false ∧ turnAroundTimeSlider.accepts 121 = false) ∧
    (displayValueOptions.length = 16 ∧ displayValueOptions.Nodup) ∧
    (proposedProcedureOptions.length = 4 ∧ proposedProcedureOptions.Nodup) ∧
    (feedbackScoreSlider.min_value = 1 ∧ feedbackScoreSlider.max_value = 5 ∧
     feedbackScoreSlider.value = 4 ∧
     feedbackScoreSlider.accepts 1 = true ∧ feedbackScoreSlider.accepts 5 = true ∧
     feedbackScoreSlider.accepts 0 = false ∧ feedbackScoreSlider.accepts 6 = false) ∧
    feedbackScoreV2Slider = feedbackScoreSlider := by
  decide

/-- Claim C9 as stated is false: when the first `log_prediction` call
raises (storage unavailable), only that one call was invoked, yet the
number of records actually appended is zero, not one. -/
theorem C9_counterexample :
    (submitFeedbackWith failLogger fb0 readyState).exc = some "storage unavailable" ∧
    (submitFeedbackWith failLogger fb0 readyState).invoked =
      [entryV1 fb0 readyState] ∧
    ¬ (submitFeedbackWith failLogger fb0 readyState).appended.length = 1 := by
  refine ⟨rfl, rfl, ?_⟩
  intro h
  simp [submitFeedbackWith, failLogger, readyState] at h

/-- Claim C9 (amended): if the first logger call raises while
`pred_ready` is true, the second call is never invoked, the success
message is not shown, no record is appended for the submission, the
exception propagates, and the session state is unchanged. -/
theorem C9_first_log_raise (logger : Logger) (fb : FeedbackInputs)
    (s : WorkflowState) (ex : String)
    (hready : s.pred_ready = true)
    (hfail : logger (entryV1 fb s) = .error ex) :
    (submitFeedbackWith logger fb s).invoked = [entryV1 fb s] ∧
    (submitFeedbackWith logger fb s).appended = [] ∧
    (submitFeedbackWith logger fb s).successes = [] ∧
    (submitFeedbackWith logger fb s).exc = some ex ∧
    (submitFeedbackWith logger fb s).state = s := by
  unfold submitFeedbackWith
  rw [if_neg (by simp [hready]), hfail]
  exact ⟨rfl, rfl, rfl, rfl, rfl⟩

/-- Witness for the amended C9 with an always-failing logger. -/
theorem C9_first_log_raise_witness :
    (submitFeedbackWith failLogger fb0 readyState).invoked =
      [entryV1 fb0 readyState] ∧
    (submitFeedbackWith failLogger fb0 readyState).appended = [] ∧
    (submitFeedbackWith failLogger fb0 readyState).successes = [] ∧
    (submitFeedbackWith failLogger fb0 readyState).exc =
      some "storage unavailable" ∧
    (submitFeedbackWith failLogger fb0 readyState).state = readyState :=
  C9_first_log_raise failLogger fb0 readyState "storage unavailable" rfl rfl

/-- Claim C10: every feedback submission — rejected, successful, or
aborted by a logger failure — leaves all five session-state fields
exactly as they were. -/
theorem C10_state_frame (logger : Logger) (fb : FeedbackInputs)
    (s : WorkflowState) : (submitFeedbackWith logger fb s).state = s :=
  submitFeedbackWith_state logger fb s
